import Mathlib

/-!
Verification of the deterministic safety-filtering and interview-orchestration
core of the AI medical chatbot backend.

The definitions below are a shallow embedding of
`backend/dynamic_medicine_engine.py` (class `DynamicMedicineEngine`) and
`backend/dynamic_symptom_engine.py` (class `DynamicSymptomEngine`), plus the
two Flask route guards of `backend/app.py` that validate raw inputs before the
engines run.  Python dictionaries with a fixed key set become structures;
Python `str.lower` becomes `strLower`; the substring test `needle in hay`
becomes `containsSub hay needle`; machine integers are `Int`; the external
text-generation call (`analyze_image_with_query`) is an explicit parameter
describing the outcome of the call for the current invocation.
-/

/-- Embedding of Python `str.lower`, written structurally so it evaluates in the
kernel (`String.toLower` itself is defined by well-founded recursion). -/
def strLower (s : String) : String :=
  ⟨s.data.map Char.toLower⟩

/-- Boolean test that `needle` is a leading segment of `hay` (character lists). -/
def charsLead : List Char → List Char → Bool
  | [], _ => true
  | _ :: _, [] => false
  | a :: as, b :: bs => a == b && charsLead as bs

/-- Boolean substring containment on character lists: `needle` occurs inside `hay`. -/
def charsWithin (needle : List Char) : List Char → Bool
  | [] => charsLead needle []
  | b :: bs => charsLead needle (b :: bs) || charsWithin needle bs

/-- Embedding of the Python substring test `needle in hay` for strings. -/
def containsSub (hay needle : String) : Bool :=
  charsWithin needle.data hay.data

/-- Lookup in an insertion-ordered association list, the embedding of
Python `dict.get` on the JSON-derived tables. -/
def alookup {α : Type} (l : List (String × α)) (k : String) : Option α :=
  match l with
  | [] => none
  | (k2, v) :: rest => if k2 == k then some v else alookup rest k

/-- Update of an insertion-ordered association list, the embedding of
Python `d[k] = v` on the per-session answer dictionaries. -/
def update_assoc (l : List (String × String)) (k v : String) : List (String × String) :=
  match l with
  | [] => [(k, v)]
  | (k2, v2) :: rest => if k2 == k then (k, v) :: rest else (k2, v2) :: update_assoc rest k v

/-- One candidate medicine entry of `medicine_database.json`
(fields as read by the engine and its tests: name, dosage, max daily dose,
source citation, safety note, plus the warnings the filter may attach). -/
structure Medicine where
  name : String
  dosage : String := ""
  max_daily : String := ""
  source : String := ""
  safety : String := ""
  warnings : List String := []
  deriving Repr, DecidableEq

/-- The structured medical profile handed to `recommend_medicines`
(`dynamic_medicine_engine.py`, docstring of `recommend_medicines`). -/
structure MedicalProfile where
  primary_symptom : String := ""
  secondary_symptoms : List String := []
  severity : Int := 5
  age_group : String := "adult"
  age : Int := 25
  existing_conditions : List String := []
  current_medications : List String := []
  pregnancy : Bool := false
  allergies : List String := []
  deriving Repr, DecidableEq

/-- The static medicine catalog loaded from `medicine_database.json`:
`medicine_map` is keyed category → severity level → age group, the three
side tables are keyed by category alone. -/
structure MedicineDB where
  medicine_map : List (String × List (String × List (String × List Medicine))) := []
  home_remedies : List (String × List String) := []
  avoid_list : List (String × List String) := []
  red_flags : List (String × List String) := []

/-- Embedding of the Python membership test
`any(cond.lower() in keys for cond in conds)` used by the condition rules. -/
def any_cond_in (conds keys : List String) : Bool :=
  conds.any (fun c => keys.contains (strLower c))

/-- Embedding of the duplicate-therapy test of `_apply_safety_filters`:
`any(cm.lower() in med_name or med_name in cm.lower() for cm in current_medications
if cm.lower() != none-literal)`. -/
def current_meds_match (current_medications : List String) (med_name : String) : Bool :=
  current_medications.any (fun cm =>
    strLower cm != ("none") &&
      (containsSub med_name (strLower cm) || containsSub (strLower cm) med_name))

/-- The soft-warning accumulator `warnings` of `_apply_safety_filters` after
the liver caution rule (lines 309-311). -/
def warnings_after_liver (med_name : String) (existing_conditions : List String) : List String :=
  if any_cond_in existing_conditions ["liver", "hepatic", "cirrhosis"] &&
      (containsSub med_name ("paracetamol") || containsSub med_name ("acetaminophen")) then
    ["⚠️ Use with caution - liver condition present. Consult doctor for dosage."]
  else []

/-- The soft-warning accumulator after the stomach/ulcer caution rule
(lines 314-316). -/
def warnings_after_stomach (med_name : String) (existing_conditions : List String) : List String :=
  warnings_after_liver med_name existing_conditions ++
    (if any_cond_in existing_conditions ["stomach", "ulcer", "gastric", "gerd"] &&
        (containsSub med_name ("ibuprofen") || containsSub med_name ("aspirin") ||
          containsSub med_name ("nsaid")) then
      ["⚠️ MUST take with food - stomach sensitivity present"]
    else [])

/-- The soft-warning accumulator after the pregnancy caution rule
(lines 336-338). -/
def warnings_after_pregnancy (med_name : String) (existing_conditions : List String)
    (pregnancy : Bool) : List String :=
  warnings_after_stomach med_name existing_conditions ++
    (if pregnancy &&
        (containsSub med_name ("paracetamol") || containsSub med_name ("acetaminophen")) then
      ["⚠️ Pregnancy: Use only as directed by doctor"]
    else [])

/-- Evaluation of one candidate inside the loop of `_apply_safety_filters`
(`dynamic_medicine_engine.py` lines 258-363).  `Sum.inl reason` is the
`continue` path with its `block_reason`; `Sum.inr med` is the candidate kept,
with the accumulated soft warnings attached exactly when non-empty.  The
running local variable `warnings` of the loop body is represented by the
`warnings_after_*` functions above (a blocked candidate discards it). -/
def evalCandidate (med : Medicine) (age : Int) (existing_conditions : List String)
    (current_medications : List String) (pregnancy : Bool) (allergies : List String) :
    Sum String Medicine :=
  if containsSub (strLower med.name) ("aspirin") && decide (age < 16) then
    Sum.inl ("Aspirin not safe for age " ++ toString age ++ " (risk of Reye\x27s syndrome)")
  else if containsSub (strLower med.name) ("ibuprofen") && decide (age < 6) then
    Sum.inl ("Ibuprofen not recommended for age " ++ toString age)
  else if containsSub (strLower med.name) ("dextromethorphan") && decide (age < 4) then
    Sum.inl ("Dextromethorphan not safe for age " ++ toString age)
  else if any_cond_in existing_conditions ["bp", "heart", "hypertension", "cardiac"] &&
      (containsSub (strLower med.name) ("pseudoephedrine") || containsSub (strLower med.name) ("decongestant") ||
        containsSub (strLower med.name) ("phenylephrine")) then
    Sum.inl ("Contraindicated with blood pressure/heart condition")
  else if any_cond_in existing_conditions ["kidney", "renal", "ckd"] &&
      (containsSub (strLower med.name) ("ibuprofen") || containsSub (strLower med.name) ("nsaid") ||
        containsSub (strLower med.name) ("aspirin")) then
    Sum.inl ("NSAIDs contraindicated with kidney condition")
  else if any_cond_in existing_conditions ["bleeding", "hemophilia", "warfarin"] &&
      (containsSub (strLower med.name) ("ibuprofen") || containsSub (strLower med.name) ("aspirin") ||
        containsSub (strLower med.name) ("nsaid")) then
    Sum.inl ("Contraindicated with bleeding disorder")
  else if pregnancy &&
      (containsSub (strLower med.name) ("ibuprofen") || containsSub (strLower med.name) ("aspirin") ||
        containsSub (strLower med.name) ("codeine")) then
    Sum.inl ("Not safe during pregnancy")
  else if allergies.any (fun a => containsSub (strLower med.name) (strLower a)) then
    Sum.inl ("Patient allergic to this medication")
  else if current_meds_match current_medications (strLower med.name) then
    Sum.inl ("Already taking this medication")
  else if (warnings_after_pregnancy (strLower med.name) existing_conditions pregnancy).isEmpty then
    Sum.inr med
  else Sum.inr { med with warnings := warnings_after_pregnancy (strLower med.name) existing_conditions pregnancy }

/-- The safety filter `_apply_safety_filters`: candidates blocked by
`evalCandidate` are dropped, the rest are returned in catalog order. -/
def apply_safety_filters (medicines : List Medicine) (age : Int)
    (existing_conditions current_medications : List String)
    (pregnancy : Bool) (allergies : List String) : List Medicine :=
  medicines.filterMap (fun med =>
    match evalCandidate med age existing_conditions current_medications pregnancy allergies with
    | Sum.inl _ => none
    | Sum.inr m => some m)

example :
    apply_safety_filters
      [{ name := "Aspirin 300mg" }, { name := "Paracetamol 500mg" }]
      10 [] [] false [] = [{ name := "Paracetamol 500mg" }] := by decide

example :
    apply_safety_filters [{ name := "Ibuprofen 200mg" }] 30 [] [] true [] = [] := by decide

example :
    apply_safety_filters [{ name := "Paracetamol 500mg" }] 30 [] [] true [] =
      [{ name := "Paracetamol 500mg",
         warnings := ["⚠️ Pregnancy: Use only as directed by doctor"] }] := by decide

/-- The complete clinical response dictionary built by `recommend_medicines`.
Keys that only some branches emit are `Option`; list/string keys read
downstream with `.get(key, default)` keep that default as their default value. -/
structure ClinicalResponse where
  medicines : List Medicine := []
  warning : Option String := none
  immediate_actions : List String := []
  supportive_care : List String := []
  home_remedies : List String := []
  avoid_list : List String := []
  red_flags : List String := []
  doctor_guidance : String := ""
  expected_recovery : String := ""
  safety_verified : Bool := false
  symptom_category : Option String := none
  severity_level : Option String := none
  error : Option String := none
  deriving Repr, DecidableEq

/-- Embedding of `_map_symptom_to_category`: exact key match against
`medicine_map`, then the fixed chain of keyword rules, then the
`body_pain` fallback. -/
def map_symptom_to_category (db : MedicineDB) (symptom0 : String) : String :=
  if (alookup db.medicine_map (strLower symptom0)).isSome then strLower symptom0
  else if containsSub (strLower symptom0) ("fever") || containsSub (strLower symptom0) ("temperature") ||
      containsSub (strLower symptom0) ("pyrexia") then "fever"
  else if containsSub (strLower symptom0) ("head") && containsSub (strLower symptom0) ("ache") then "headache"
  else if containsSub (strLower symptom0) ("migraine") then "headache"
  else if containsSub (strLower symptom0) ("cough") then
    (if containsSub (strLower symptom0) ("dry") || containsSub (strLower symptom0) ("tickle") ||
        containsSub (strLower symptom0) ("irritat") then "cough_dry"
     else if containsSub (strLower symptom0) ("wet") || containsSub (strLower symptom0) ("phlegm") ||
        containsSub (strLower symptom0) ("mucus") || containsSub (strLower symptom0) ("productive") then "cough_wet"
     else "cough_dry")
  else if containsSub (strLower symptom0) ("throat") || containsSub (strLower symptom0) ("pharyngitis") then "sore_throat"
  else if containsSub (strLower symptom0) ("cold") || containsSub (strLower symptom0) ("runny nose") ||
      containsSub (strLower symptom0) ("congestion") then
    (if (alookup db.medicine_map ("cold")).isSome then "cold" else "sore_throat")
  else if containsSub (strLower symptom0) ("diarrhea") || containsSub (strLower symptom0) ("loose motion") ||
      containsSub (strLower symptom0) ("stomach upset") then
    (if (alookup db.medicine_map ("diarrhea")).isSome then "diarrhea" else "body_pain")
  else if containsSub (strLower symptom0) ("acidity") || containsSub (strLower symptom0) ("heartburn") ||
      containsSub (strLower symptom0) ("acid reflux") then
    (if (alookup db.medicine_map ("acidity")).isSome then "acidity" else "body_pain")
  else if containsSub (strLower symptom0) ("allergy") || containsSub (strLower symptom0) ("allergic") ||
      containsSub (strLower symptom0) ("rash") || containsSub (strLower symptom0) ("itch") then
    (if (alookup db.medicine_map ("allergy")).isSome then "allergy" else "body_pain")
  else if containsSub (strLower symptom0) ("pain") || containsSub (strLower symptom0) ("ache") ||
      containsSub (strLower symptom0) ("sore") then "body_pain"
  else "body_pain"

/-- Embedding of `_get_base_medicines`: the chained `.get(..., {})` lookups. -/
def get_base_medicines (db : MedicineDB) (symptom_category severity_level age_group : String) :
    List Medicine :=
  match alookup db.medicine_map symptom_category with
  | none => []
  | some sev =>
    match alookup sev severity_level with
    | none => []
    | some ag => (alookup ag age_group).getD []

/-- Embedding of `_get_supportive_care` (a fixed list, the argument is unused
by the source as well). -/
def get_supportive_care (_symptom : String) : List String :=
  ["Rest and avoid strenuous activity",
   "Stay well hydrated (water, ORS)",
   "Monitor symptoms closely",
   "Keep emergency contacts ready"]

/-- Embedding of `_generate_immediate_actions` (the later, two-argument
definition in the source, which shadows the earlier one). -/
def generate_immediate_actions (symptom_category : String) (_severity : Int) : List String :=
  let actions_map : List (String × List String) :=
    [("fever",
      ["RIGHT NOW: Remove excess clothing, stay in cool room (not cold)",
       "WITHIN 1 HOUR: Drink 2-3 glasses of water slowly",
       "WITHIN 2 HOURS: Apply damp cloth to forehead and wrists"]),
     ("headache",
      ["RIGHT NOW: Lie down in quiet, dark room for 15-20 minutes",
       "WITHIN 30 MIN: Drink 2 glasses of water slowly (dehydration causes headaches)",
       "WITHIN 1 HOUR: Apply cold compress to forehead or back of neck"]),
     ("cough_dry",
      ["RIGHT NOW: Sip warm water slowly to soothe throat",
       "WITHIN 30 MIN: Take 1 tsp honey in warm water (natural cough suppressant)",
       "WITHIN 1 HOUR: Use humidifier or steam inhalation for 5-10 minutes"]),
     ("cough_wet",
      ["RIGHT NOW: Sit upright (don\x27t lie flat) to help drainage",
       "WITHIN 30 MIN: Steam inhalation to loosen mucus",
       "WITHIN 1 HOUR: Drink warm soup or tea"]),
     ("sore_throat",
      ["RIGHT NOW: Gargle with warm salt water (1/2 tsp salt in warm water)",
       "WITHIN 30 MIN: Sip warm tea with honey",
       "WITHIN 1 HOUR: Use throat lozenge or spray"]),
     ("body_pain",
      ["RIGHT NOW: Rest in comfortable position, avoid movement",
       "WITHIN 30 MIN: Apply warm compress to affected area",
       "WITHIN 1 HOUR: Gentle stretching if pain allows"])]
  let default_actions :=
    ["RIGHT NOW: Rest and avoid strenuous activity",
     "WITHIN 1 HOUR: Drink plenty of fluids (water, warm tea)",
     "WITHIN 2 HOURS: Monitor symptoms and note any changes"]
  (alookup actions_map symptom_category).getD default_actions

/-- Embedding of `_generate_doctor_guidance`. -/
def generate_doctor_guidance (severity : Int) (_symptom_category : String) : String :=
  if severity ≥ 6 then
    "⚕️ IMPORTANT: See a doctor TODAY if symptoms don\x27t improve within 24 hours or worsen. Don\x27t delay."
  else if severity ≥ 4 then
    "⚕️ Schedule doctor appointment within 24-48 hours if no improvement. Monitor symptoms closely."
  else
    "⚕️ If symptoms persist beyond 3 days or worsen, consult your doctor. Most cases improve with home care."

/-- Embedding of `_get_recovery_timeline`. -/
def get_recovery_timeline (severity : Int) (_symptom_category : String) : String :=
  if severity ≤ 3 then
    "⏱️ GOOD NEWS: You should start feeling better within 24-48 hours with proper care and rest."
  else if severity ≤ 6 then
    "⏱️ Most people recover within 3-5 days with appropriate treatment. You\x27re on the right track."
  else
    "⏱️ Recovery time varies based on individual factors. Follow medical advice and monitor progress daily."

/-- The severity-gate branch of `recommend_medicines` (lines 94-110): the
dictionary returned for `severity >= 7`, which never consults the candidate
catalog entries nor any profile field other than the primary symptom. -/
def severe_response (db : MedicineDB) (primary_symptom : String) : ClinicalResponse :=
  { medicines := []
    warning := some ("🚨 SEVERE SYMPTOMS - Seek medical attention TODAY")
    immediate_actions :=
      ["🚨 Contact your doctor immediately or visit urgent care",
       "📞 Call emergency services if symptoms worsen rapidly",
       "⚠️ Do not self-medicate for severe symptoms"]
    supportive_care := get_supportive_care primary_symptom
    home_remedies := (alookup db.home_remedies (map_symptom_to_category db primary_symptom)).getD []
    red_flags := (alookup db.red_flags (map_symptom_to_category db primary_symptom)).getD []
    doctor_guidance := "⚕️ URGENT: See a doctor TODAY - do not delay"
    expected_recovery := "Recovery depends on proper medical treatment"
    safety_verified := true }

/-- The body of the `try` block of `recommend_medicines` (lines 79-163). -/
def recommend_core (db : MedicineDB) (p : MedicalProfile) : ClinicalResponse :=
  let primary_symptom := strLower p.primary_symptom
  if p.severity ≥ 7 then severe_response db primary_symptom
  else
    let symptom_category := map_symptom_to_category db primary_symptom
    let severity_level := if p.severity ≤ 3 then ("mild") else ("moderate")
    let base := get_base_medicines db symptom_category severity_level p.age_group
    let medicines := apply_safety_filters base p.age p.existing_conditions
      p.current_medications p.pregnancy p.allergies
    { medicines := medicines
      home_remedies := (alookup db.home_remedies symptom_category).getD []
      avoid_list := (alookup db.avoid_list symptom_category).getD []
      red_flags := (alookup db.red_flags symptom_category).getD []
      immediate_actions := generate_immediate_actions symptom_category p.severity
      doctor_guidance := generate_doctor_guidance p.severity symptom_category
      expected_recovery := get_recovery_timeline p.severity symptom_category
      safety_verified := true
      symptom_category := some symptom_category
      severity_level := some severity_level }

/-- The `try/except` wrapper of `recommend_medicines` (lines 165-173): a body
that raised with message `e` is converted into the fixed degraded response. -/
def recommend_medicines_with (body : Except String ClinicalResponse) : ClinicalResponse :=
  match body with
  | Except.ok r => r
  | Except.error e =>
    { medicines := []
      warning := some ("Unable to generate recommendations. Please consult a healthcare professional.")
      immediate_actions := ["Contact your healthcare provider for guidance"]
      error := some e
      safety_verified := false }

/-- Embedding of `recommend_medicines`.  In the typed embedding the body is
total, so the interface always receives the `Except.ok` case; the `except`
handler is kept explicit in `recommend_medicines_with`. -/
def recommend_medicines (db : MedicineDB) (p : MedicalProfile) : ClinicalResponse :=
  recommend_medicines_with (Except.ok (recommend_core db p))

/-- Embedding of `build_medical_profile_from_answers`: parsing the banded
universal answers into the structured profile (the `try` body is total here,
so the `except` default-profile branch is unreachable). -/
def build_medical_profile_from_answers (symptom : String)
    (universal_answers _symptom_answers : List (String × String)) : MedicalProfile :=
  let age_str := (alookup universal_answers ("age")).getD ("Unknown")
  let ag : Int × String :=
    if containsSub age_str ("Under 18") then (15, "child")
    else if containsSub age_str ("18-30") then (25, "adult")
    else if containsSub age_str ("31-45") then (38, "adult")
    else if containsSub age_str ("46-60") then (53, "adult")
    else if containsSub age_str ("Over 60") then (65, "adult")
    else (30, "adult")
  let severity_str := (alookup universal_answers ("severity")).getD ("3-6 (Moderate)")
  let severity : Int :=
    if containsSub severity_str ("0-2") then 2
    else if containsSub severity_str ("3-6") then 5
    else if containsSub severity_str ("7-10") then 8
    else 5
  let current_meds_str := (alookup universal_answers ("current_medications")).getD ("None")
  let current_medications :=
    if current_meds_str != ("") && strLower current_meds_str != ("none") then
      [current_meds_str]
    else []
  let other_symptoms_str := (alookup universal_answers ("other_symptoms")).getD ("None")
  let secondary_symptoms :=
    if other_symptoms_str != ("") && strLower other_symptoms_str != ("none") then
      [other_symptoms_str]
    else []
  { primary_symptom := symptom
    secondary_symptoms := secondary_symptoms
    severity := severity
    age_group := ag.2
    age := ag.1
    existing_conditions := []
    current_medications := current_medications
    pregnancy := false
    allergies := [] }

example :
    (build_medical_profile_from_answers ("fever")
      [("age", "Under 18"), ("severity", "7-10 (Severe)"),
       ("current_medications", "None"), ("other_symptoms", "Fatigue")] []).age = 15 := by decide

example :
    (build_medical_profile_from_answers ("fever")
      [("age", "Under 18"), ("severity", "7-10 (Severe)"),
       ("current_medications", "None"), ("other_symptoms", "Fatigue")] []).severity = 8 := by decide

example : map_symptom_to_category { medicine_map := [] } ("high Fever and pain") = "fever" := by decide

example : map_symptom_to_category { medicine_map := [] } ("dizziness") = "body_pain" := by decide

/-- One interview question as the engines pass it around
(`type` is spelled `qtype` because `type` is reserved in Lean). -/
structure Question where
  id : String := ""
  text : String := ""
  qtype : String := "choice"
  options : List String := []
  priority : Int := 0
  reason : String := ""
  deriving Repr, DecidableEq

/-- A question dictionary as returned by the Generation Gateway before shape
validation: any of the required keys may be missing. -/
structure RawQuestion where
  id : Option String := none
  text : Option String := none
  qtype : Option String := none
  options : Option (List String) := none
  deriving Repr, DecidableEq

/-- The per-session dictionary threaded through the interview state machine
(`dynamic_symptom_engine.py`). -/
structure SessionData where
  symptom : String := ""
  universal_answers : List (String × String) := []
  symptom_specific_answers : List (String × String) := []
  current_question_index : Nat := 0
  phase : String := "universal"
  symptom_specific_questions : List Question := []
  started_at : String := ""
  deriving Repr, DecidableEq

/-- The analysis dictionary of `_generate_final_analysis`: the structured
fields the narrative prompt requests, the `raw_response` key used on the
unparsed fallback, and the verified keys merged in from the medicine engine. -/
structure Analysis where
  possible_causes : List String := []
  severity_assessment : Option String := none
  immediate_relief_steps : List String := []
  home_remedies : List String := []
  recommended_medicines : List String := []
  red_flags : List String := []
  when_to_see_doctor : Option String := none
  additional_advice : Option String := none
  expected_recovery : Option String := none
  raw_response : Option String := none
  verified_medicines : Option (List Medicine) := none
  verified_home_remedies : Option (List String) := none
  avoid_list : Option (List String) := none
  immediate_actions : Option (List String) := none
  verified_red_flags : Option (List String) := none
  doctor_guidance : Option String := none
  deriving Repr, DecidableEq

/-- Outcome of the single narrative call of `_generate_final_analysis`:
the external call raised, or returned text in which no JSON object could be
found (`json_start == -1` or `json.loads` failure), or returned text whose
embedded JSON object parsed to an analysis dictionary. -/
inductive NarrativeOutcome where
  | raised (e : String)
  | unparsed (raw : String)
  | parsed (a : Analysis)
  deriving Repr, DecidableEq

/-- A result dictionary returned by `start_symptom_assessment` or
`process_answer`.  Keys absent from a given branch are `none`; the
display-only `progress` and `formatted_response` keys (a percentage rendered
with floating-point arithmetic and a markdown rendering of `analysis`) are
not modelled — no claim depends on them. -/
structure StepResult where
  status : String := ""
  symptom : Option String := none
  question : Option Question := none
  session_data : Option SessionData := none
  message : Option String := none
  analysis : Option Analysis := none
  deriving Repr, DecidableEq

/-- The class constant `UNIVERSAL_QUESTIONS` (lines 30-63), verbatim. -/
def universal_questions : List Question :=
  [{ id := "age",
     text := "What is your age?",
     qtype := "choice",
     options := ["Under 18", "18-30", "31-45", "46-60", "Over 60"],
     priority := 1,
     reason := "Critical for medication safety and dosing" },
   { id := "severity",
     text := "On a scale of 0-10, how severe is your symptom? (0=none, 2=mild, 6=moderate, 10=unbearable)",
     qtype := "choice",
     options := ["0-2 (Minimal)", "3-6 (Moderate)", "7-10 (Severe)"],
     priority := 1,
     reason := "Determines urgency and treatment approach" },
   { id := "current_medications",
     text := "Are you currently taking any medications?",
     qtype := "choice",
     options := ["None", "Paracetamol", "Ibuprofen", "Aspirin", "Blood pressure meds", "Diabetes meds", "Other"],
     priority := 1,
     reason := "Prevents dangerous drug interactions" },
   { id := "other_symptoms",
     text := "Are you experiencing any other symptoms along with this?",
     qtype := "choice",
     options := ["Fever", "Fatigue", "Body pain", "Nausea", "Dizziness", "None", "Other"],
     priority := 2,
     reason := "Identifies related conditions and complications" }]

/-- Embedding of `_get_fallback_questions`. -/
def get_fallback_questions (symptom : String) : List Question :=
  [{ id := "duration",
     text := "How long have you had this " ++ symptom ++ "?",
     qtype := "choice",
     options := ["Less than 24 hours", "1-3 days", "4-7 days", "More than a week"] },
   { id := "pattern",
     text := "Is the " ++ symptom ++ " constant or does it come and go?",
     qtype := "choice",
     options := ["Constant", "Comes and goes", "Getting worse", "Getting better"] },
   { id := "triggers",
     text := "What makes the " ++ symptom ++ " worse?",
     qtype := "choice",
     options := ["Physical activity", "Rest/lying down", "Eating", "Stress", "Nothing specific"] }]

/-- Shape validation of one gateway question
(`all(key in q for key in [id, text, options])`, defaulting `type`
to `choice` when absent). -/
def validate_raw_question (rq : RawQuestion) : Option Question :=
  match rq.id, rq.text, rq.options with
  | some i, some t, some o =>
    some { id := i, text := t, qtype := rq.qtype.getD ("choice"), options := o }
  | _, _, _ => none

/-- Embedding of `_generate_symptom_specific_questions`.  The external call
plus JSON-list extraction is the parameter `qgen`: an exception, no parseable
JSON list (`none`), or the parsed list of question dictionaries. -/
def generate_symptom_specific_questions (qgen : Except String (Option (List RawQuestion)))
    (symptom : String) (_universal_answers : List (String × String)) : List Question :=
  match qgen with
  | Except.error _ => get_fallback_questions symptom
  | Except.ok none => get_fallback_questions symptom
  | Except.ok (some qs) =>
    let valid_questions := qs.filterMap validate_raw_question
    if valid_questions.isEmpty then get_fallback_questions symptom else valid_questions

/-- The usable questions a gateway outcome yields before the fallback is
considered (empty exactly when the source falls back). -/
def usable_of (qgen : Except String (Option (List RawQuestion))) : List Question :=
  match qgen with
  | Except.error _ => []
  | Except.ok none => []
  | Except.ok (some qs) => qs.filterMap validate_raw_question

/-- The key merging of `_generate_final_analysis` (lines 447-453): the
verified medicine-engine output is written into the parsed analysis dict. -/
def merge_verified (a : Analysis) (vm : ClinicalResponse) : Analysis :=
  { a with
    verified_medicines := some vm.medicines
    verified_home_remedies := some vm.home_remedies
    avoid_list := some vm.avoid_list
    immediate_actions := some vm.immediate_actions
    verified_red_flags := some vm.red_flags
    doctor_guidance := some vm.doctor_guidance
    expected_recovery := some vm.expected_recovery }

/-- Embedding of `_generate_final_analysis` (lines 338-483), parameterised by
the narrative call outcome.  Only on a successfully parsed narrative does the
code build the medical profile and attach the verified medicines; an unparsed
narrative returns the raw text alone, and a raised call returns an error
result. -/
def generate_final_analysis (nar : NarrativeOutcome) (db : MedicineDB)
    (session : SessionData) : StepResult :=
  let symptom := session.symptom
  match nar with
  | NarrativeOutcome.raised e =>
    { status := "error", message := some ("Error generating analysis: " ++ e) }
  | NarrativeOutcome.unparsed raw =>
    { status := "complete",
      analysis := some { raw_response := some raw },
      session_data := some session,
      symptom := some symptom }
  | NarrativeOutcome.parsed a =>
    let medical_profile := build_medical_profile_from_answers symptom
      session.universal_answers session.symptom_specific_answers
    let verified_medicines := recommend_medicines db medical_profile
    { status := "complete",
      analysis := some (merge_verified a verified_medicines),
      session_data := some session,
      symptom := some symptom }

/-- Embedding of `start_symptom_assessment` (lines 69-108); `now` stands for
`datetime.now().isoformat()`.  The empty-catalog match arm is the embedding of
the `IndexError` path of the surrounding `try/except`. -/
def start_symptom_assessment (symptom_text now : String)
    (session0 : Option SessionData) : StepResult :=
  let base := session0.getD {}
  let s := { base with
    symptom := symptom_text
    universal_answers := []
    symptom_specific_answers := []
    current_question_index := 0
    phase := "universal"
    started_at := now }
  match universal_questions with
  | [] => { status := "error", message := some ("list index out of range") }
  | first_question :: _ =>
    { status := "started",
      symptom := some symptom_text,
      question := some first_question,
      session_data := some s,
      message := some ("Let\x27s assess your " ++ symptom_text ++ ". I\x27ll ask you a few questions to understand better.") }

/-- The error dictionary of the blanket `except` branch of `process_answer`. -/
def mk_error (msg : String) : StepResult :=
  { status := "error", message := some msg }

/-- Embedding of `process_answer` (lines 110-219).  `qgen` and `nar` are the
outcomes of the two possible external calls for this invocation.  Out-of-range
question indices are the `IndexError` path of the `try/except` (Python raises
before any answer is stored, so no session state is written on that path). -/
def process_answer (qgen : Except String (Option (List RawQuestion)))
    (nar : NarrativeOutcome) (db : MedicineDB)
    (answer : String) (session : SessionData) : StepResult :=
  let phase := session.phase
  let question_index := session.current_question_index
  if phase == ("universal") then
    match universal_questions[question_index]? with
    | none => mk_error ("list index out of range")
    | some current_question =>
      let s1 := { session with
        universal_answers := update_assoc session.universal_answers current_question.id answer }
      let qi2 := question_index + 1
      let s2 := { s1 with current_question_index := qi2 }
      if h : qi2 < universal_questions.length then
        { status := "continue",
          question := some (universal_questions[qi2]),
          session_data := some s2 }
      else
        let s3 := { s2 with phase := "symptom_specific", current_question_index := 0 }
        let symptom_questions :=
          generate_symptom_specific_questions qgen s3.symptom s3.universal_answers
        let s4 := { s3 with symptom_specific_questions := symptom_questions }
        match symptom_questions with
        | q0 :: _ =>
          { status := "continue",
            question := some q0,
            session_data := some s4,
            message := some ("Now let me ask some specific questions about your symptom...") }
        | [] => generate_final_analysis nar db s4
  else if phase == ("symptom_specific") then
    let symptom_questions := session.symptom_specific_questions
    match symptom_questions[question_index]? with
    | none => mk_error ("list index out of range")
    | some current_question =>
      let s1 := { session with
        symptom_specific_answers :=
          update_assoc session.symptom_specific_answers current_question.id answer }
      let qi2 := question_index + 1
      let s2 := { s1 with current_question_index := qi2 }
      if h : qi2 < symptom_questions.length then
        { status := "continue",
          question := some (symptom_questions[qi2]),
          session_data := some s2 }
      else
        generate_final_analysis nar db s2
  else mk_error ("Invalid phase")

/-- The input guard of the Flask route `/api/dynamic/start` (`app.py`
lines 832-843): a falsy symptom string is rejected before the engine runs. -/
def start_dynamic_assessment_route (symptom_text now : String) : Sum String StepResult :=
  if symptom_text == ("") then Sum.inl ("Symptom text required")
  else Sum.inr (start_symptom_assessment symptom_text now none)

/-- The input guard of the Flask route `/api/dynamic/answer` (`app.py`
lines 875-893): a falsy answer or a missing session is rejected before the
engine runs. -/
def answer_dynamic_question_route (qgen : Except String (Option (List RawQuestion)))
    (nar : NarrativeOutcome) (db : MedicineDB)
    (answer : String) (session : Option SessionData) : Sum String StepResult :=
  if answer == ("") then Sum.inl ("Answer required")
  else
    match session with
    | none => Sum.inl ("No active assessment found. Please start a new assessment.")
    | some s => Sum.inr (process_answer qgen nar db answer s)

/-- Driver: the questions returned while feeding `answers` one at a time into
`process_answer`, starting from session `s`. -/
def answers_trace (qgen : Except String (Option (List RawQuestion)))
    (nar : NarrativeOutcome) (db : MedicineDB) :
    List String → SessionData → List Question
  | [], _ => []
  | a :: rest, s =>
    let r := process_answer qgen nar db a s
    match r.question, r.session_data with
    | some q, some s2 => q :: answers_trace qgen nar db rest s2
    | _, _ => []

/-- Driver: the question of a fresh `start_symptom_assessment` call followed
by the questions returned for each answer in turn. -/
def questions_asked (qgen : Except String (Option (List RawQuestion)))
    (nar : NarrativeOutcome) (db : MedicineDB)
    (symptom now : String) (answers : List String) : List Question :=
  let r := start_symptom_assessment symptom now none
  match r.question, r.session_data with
  | some q, some s => q :: answers_trace qgen nar db answers s
  | _, _ => []

/-- Driver: feed the answers sequentially, following `continue` results (as
the `/api/dynamic/answer` route does), and return the last result. -/
def run_answers (qgen : Except String (Option (List RawQuestion)))
    (nar : NarrativeOutcome) (db : MedicineDB) :
    String → List String → SessionData → StepResult
  | a, [], s => process_answer qgen nar db a s
  | a, b :: more, s =>
    let r := process_answer qgen nar db a s
    match r.session_data with
    | some s2 => if r.status == ("continue") then run_answers qgen nar db b more s2 else r
    | none => r

/-- Driver: a whole session from `start_symptom_assessment` through a list of
answers. -/
def run_session (qgen : Except String (Option (List RawQuestion)))
    (nar : NarrativeOutcome) (db : MedicineDB)
    (symptom now : String) (answers : List String) : StepResult :=
  let r := start_symptom_assessment symptom now none
  match answers, r.session_data with
  | [], _ => r
  | _, none => r
  | a :: rest, some s => run_answers qgen nar db a rest s

example :
    (run_session (Except.ok none) (NarrativeOutcome.unparsed ("no json")) {}
      ("ear pain") ("t0")
      ["18-30", "3-6 (Moderate)", "None", "None", "1-3 days", "Constant", "Stress"]).status
    = "complete" := by decide

example :
    (questions_asked (Except.ok none) (NarrativeOutcome.unparsed ("x")) {}
      ("ear pain") ("t0") ["18-30", "3-6 (Moderate)", "None"])
    = universal_questions := by decide

/-- First-match evaluation of an ordered rule table: the reason of the first
rule whose condition holds, `none` when no rule matches. -/
def first_match : List (Bool × String) → Option String
  | [] => none
  | (c, r) :: rest => if c then some r else first_match rest

/-- Specification-side definition (for the refinement claim about rule order):
the hard-block rules as an ordered, declarative table — age floors, then
condition contraindications, then pregnancy, then allergy, then duplicate
therapy — evaluated first-match-wins.  Rule contents are those of
`_apply_safety_filters`; the ordering is the one the spec §4.2 fixes. -/
def spec_hard_block (med_name : String) (age : Int)
    (existing_conditions current_medications : List String)
    (pregnancy : Bool) (allergies : List String) : Option String :=
  first_match
    [(containsSub med_name ("aspirin") && decide (age < 16),
      "Aspirin not safe for age " ++ toString age ++ " (risk of Reye\x27s syndrome)"),
     (containsSub med_name ("ibuprofen") && decide (age < 6),
      "Ibuprofen not recommended for age " ++ toString age),
     (containsSub med_name ("dextromethorphan") && decide (age < 4),
      "Dextromethorphan not safe for age " ++ toString age),
     (any_cond_in existing_conditions ["bp", "heart", "hypertension", "cardiac"] &&
        (containsSub med_name ("pseudoephedrine") || containsSub med_name ("decongestant") ||
          containsSub med_name ("phenylephrine")),
      "Contraindicated with blood pressure/heart condition"),
     (any_cond_in existing_conditions ["kidney", "renal", "ckd"] &&
        (containsSub med_name ("ibuprofen") || containsSub med_name ("nsaid") ||
          containsSub med_name ("aspirin")),
      "NSAIDs contraindicated with kidney condition"),
     (any_cond_in existing_conditions ["bleeding", "hemophilia", "warfarin"] &&
        (containsSub med_name ("ibuprofen") || containsSub med_name ("aspirin") ||
          containsSub med_name ("nsaid")),
      "Contraindicated with bleeding disorder"),
     (pregnancy &&
        (containsSub med_name ("ibuprofen") || containsSub med_name ("aspirin") ||
          containsSub med_name ("codeine")),
      "Not safe during pregnancy"),
     (allergies.any (fun a => containsSub med_name (strLower a)),
      "Patient allergic to this medication"),
     (current_meds_match current_medications med_name,
      "Already taking this medication")]

/-- The block reason a candidate decision carries (`none` when allowed). -/
def block_reason_of : Sum String Medicine → Option String
  | Sum.inl r => some r
  | Sum.inr _ => none

set_option maxHeartbeats 3200000 in
/-- Facts about any candidate that survives `evalCandidate`: its name is the
input name, none of the age-floor or pregnancy hard rules matched, and if the
pregnancy soft rule applied then its warning was attached. -/
theorem evalCandidate_inr_facts
    (med m : Medicine) (age : Int) (conds cur : List String) (preg : Bool) (alls : List String)
    (h : evalCandidate med age conds cur preg alls = Sum.inr m) :
    m.name = med.name ∧
    (containsSub (strLower med.name) ("aspirin") && decide (age < 16)) = false ∧
    (containsSub (strLower med.name) ("ibuprofen") && decide (age < 6)) = false ∧
    (containsSub (strLower med.name) ("dextromethorphan") && decide (age < 4)) = false ∧
    (preg && (containsSub (strLower med.name) ("ibuprofen") ||
        containsSub (strLower med.name) ("aspirin") ||
        containsSub (strLower med.name) ("codeine"))) = false ∧
    ((preg && (containsSub (strLower med.name) ("paracetamol") ||
        containsSub (strLower med.name) ("acetaminophen"))) = true →
      ("⚠️ Pregnancy: Use only as directed by doctor") ∈ m.warnings) := by
  rw [evalCandidate] at h
  split_ifs at h <;>
    first
      | exact Sum.noConfusion h
      | (obtain rfl : _ = m := Sum.inr.inj h
         refine ⟨rfl, ?_, ?_, ?_, ?_, ?_⟩ <;>
           first
             | (simp_all
                done)
             | (intro hp
                simp_all [warnings_after_pregnancy, warnings_after_stomach,
                  warnings_after_liver]))

/-- Any member of the safety filter output comes from an input candidate that
`evalCandidate` kept. -/
theorem mem_apply_safety_filters
    (meds : List Medicine) (age : Int) (conds cur : List String)
    (preg : Bool) (alls : List String) (m : Medicine)
    (hm : m ∈ apply_safety_filters meds age conds cur preg alls) :
    ∃ med ∈ meds, evalCandidate med age conds cur preg alls = Sum.inr m := by
  simp only [apply_safety_filters, List.mem_filterMap] at hm
  obtain ⟨med, hmed, hev⟩ := hm
  refine ⟨med, hmed, ?_⟩
  cases heq : evalCandidate med age conds cur preg alls with
  | inl r => rw [heq] at hev; simp at hev
  | inr m2 => rw [heq] at hev; simp at hev; rw [hev]

/-- A concrete aspirin-class catalog entry used as test input. -/
def aspirin_med : Medicine := { name := "Aspirin 300mg" }

/-- A concrete ibuprofen-class catalog entry used as test input. -/
def ibuprofen_med : Medicine := { name := "Ibuprofen 200mg" }

/-- A concrete paracetamol-class catalog entry used as test input. -/
def paracetamol_med : Medicine := { name := "Paracetamol 500mg" }

/-- C3: for every patient profile with age below the pediatric threshold of a
restricted substance class (aspirin for age < 16, ibuprofen for age < 6,
dextromethorphan for age < 4), that substance never appears in the allowed
medicines list returned by the safety filter, regardless of every other
profile field. -/
theorem pediatric_age_floor
    (meds : List Medicine) (age : Int) (conds cur : List String)
    (preg : Bool) (alls : List String) (m : Medicine)
    (hm : m ∈ apply_safety_filters meds age conds cur preg alls) :
    (containsSub (strLower m.name) ("aspirin") = true → ¬ age < 16) ∧
    (containsSub (strLower m.name) ("ibuprofen") = true → ¬ age < 6) ∧
    (containsSub (strLower m.name) ("dextromethorphan") = true → ¬ age < 4) := by
  obtain ⟨med, hmed, hev⟩ := mem_apply_safety_filters meds age conds cur preg alls m hm
  obtain ⟨hname, h1, h2, h3, h4, h5⟩ := evalCandidate_inr_facts med m age conds cur preg alls hev
  rw [hname]
  refine ⟨?_, ?_, ?_⟩ <;> intro hc hlt
  · rw [hc] at h1; simp [hlt] at h1
  · rw [hc] at h2; simp [hlt] at h2
  · rw [hc] at h3; simp [hlt] at h3

/-- Witness for `pediatric_age_floor`: a ten-year-old profile over a catalog
holding an aspirin and a paracetamol entry; the paracetamol entry is in the
allowed list and satisfies the conclusion. -/
theorem pediatric_age_floor_witness :
    (containsSub (strLower paracetamol_med.name) ("aspirin") = true → ¬ (10 : Int) < 16) ∧
    (containsSub (strLower paracetamol_med.name) ("ibuprofen") = true → ¬ (10 : Int) < 6) ∧
    (containsSub (strLower paracetamol_med.name) ("dextromethorphan") = true → ¬ (10 : Int) < 4) :=
  pediatric_age_floor [aspirin_med, paracetamol_med] 10 [] [] false [] paracetamol_med (by decide)

/-- C4: for every profile with pregnancy set, no candidate of the blocked
substance classes (ibuprofen, aspirin, codeine) appears in the allowed list,
and every allowed paracetamol/acetaminophen candidate carries the pregnancy
caution warning. -/
theorem pregnancy_filter
    (meds : List Medicine) (age : Int) (conds cur : List String)
    (alls : List String) (m : Medicine)
    (hm : m ∈ apply_safety_filters meds age conds cur true alls) :
    containsSub (strLower m.name) ("ibuprofen") = false ∧
    containsSub (strLower m.name) ("aspirin") = false ∧
    containsSub (strLower m.name) ("codeine") = false ∧
    ((containsSub (strLower m.name) ("paracetamol") ||
        containsSub (strLower m.name) ("acetaminophen")) = true →
      ("⚠️ Pregnancy: Use only as directed by doctor") ∈ m.warnings) := by
  obtain ⟨med, hmed, hev⟩ := mem_apply_safety_filters meds age conds cur true alls m hm
  obtain ⟨hname, h1, h2, h3, h4, h5⟩ := evalCandidate_inr_facts med m age conds cur true alls hev
  rw [hname]
  obtain ⟨⟨h4a, h4b⟩, h4c⟩ : (_ ∧ _) ∧ _ := by simpa using h4
  refine ⟨h4a, h4b, h4c, ?_⟩
  intro hp
  exact h5 (by simp [hp])

/-- The paracetamol entry as the pregnancy path returns it, with the caution
warning attached. -/
def paracetamol_med_warned : Medicine :=
  { name := "Paracetamol 500mg", warnings := ["⚠️ Pregnancy: Use only as directed by doctor"] }

/-- Witness for `pregnancy_filter`: a pregnant adult profile over a catalog
holding an ibuprofen and a paracetamol entry; the ibuprofen entry is blocked
and the allowed paracetamol entry carries the caution warning. -/
theorem pregnancy_filter_witness :
    containsSub (strLower paracetamol_med_warned.name) ("ibuprofen") = false ∧
    containsSub (strLower paracetamol_med_warned.name) ("aspirin") = false ∧
    containsSub (strLower paracetamol_med_warned.name) ("codeine") = false ∧
    ((containsSub (strLower paracetamol_med_warned.name) ("paracetamol") ||
        containsSub (strLower paracetamol_med_warned.name) ("acetaminophen")) = true →
      ("⚠️ Pregnancy: Use only as directed by doctor") ∈ paracetamol_med_warned.warnings) :=
  pregnancy_filter [ibuprofen_med, paracetamol_med] 30 [] [] [] paracetamol_med_warned (by decide)

/-- C5: the hard-block decision of `_apply_safety_filters` equals first-match
evaluation of the ordered rule table (age floors, condition
contraindications, pregnancy, allergy, duplicate therapy): evaluation stops
at the first matching rule, and the reported reason is exactly the reason of
that rule — a candidate matching several rules reports only the first. -/
theorem hard_rules_first_match
    (med : Medicine) (age : Int) (conds cur : List String) (preg : Bool) (alls : List String) :
    block_reason_of (evalCandidate med age conds cur preg alls) =
      spec_hard_block (strLower med.name) age conds cur preg alls := by
  unfold evalCandidate spec_hard_block
  by_cases h1 : (containsSub (strLower med.name) ("aspirin") && decide (age < 16)) = true
  · rw [if_pos h1, first_match, if_pos h1]; rfl
  rw [if_neg h1, first_match, if_neg h1]
  by_cases h2 : (containsSub (strLower med.name) ("ibuprofen") && decide (age < 6)) = true
  · rw [if_pos h2, first_match, if_pos h2]; rfl
  rw [if_neg h2, first_match, if_neg h2]
  by_cases h3 : (containsSub (strLower med.name) ("dextromethorphan") && decide (age < 4)) = true
  · rw [if_pos h3, first_match, if_pos h3]; rfl
  rw [if_neg h3, first_match, if_neg h3]
  by_cases h4 : (any_cond_in conds ["bp", "heart", "hypertension", "cardiac"] && (containsSub (strLower med.name) ("pseudoephedrine") || containsSub (strLower med.name) ("decongestant") || containsSub (strLower med.name) ("phenylephrine"))) = true
  · rw [if_pos h4, first_match, if_pos h4]; rfl
  rw [if_neg h4, first_match, if_neg h4]
  by_cases h5 : (any_cond_in conds ["kidney", "renal", "ckd"] && (containsSub (strLower med.name) ("ibuprofen") || containsSub (strLower med.name) ("nsaid") || containsSub (strLower med.name) ("aspirin"))) = true
  · rw [if_pos h5, first_match, if_pos h5]; rfl
  rw [if_neg h5, first_match, if_neg h5]
  by_cases h6 : (any_cond_in conds ["bleeding", "hemophilia", "warfarin"] && (containsSub (strLower med.name) ("ibuprofen") || containsSub (strLower med.name) ("aspirin") || containsSub (strLower med.name) ("nsaid"))) = true
  · rw [if_pos h6, first_match, if_pos h6]; rfl
  rw [if_neg h6, first_match, if_neg h6]
  by_cases h7 : (preg && (containsSub (strLower med.name) ("ibuprofen") || containsSub (strLower med.name) ("aspirin") || containsSub (strLower med.name) ("codeine"))) = true
  · rw [if_pos h7, first_match, if_pos h7]; rfl
  rw [if_neg h7, first_match, if_neg h7]
  by_cases h8 : (alls.any (fun a => containsSub (strLower med.name) (strLower a))) = true
  · rw [if_pos h8, first_match, if_pos h8]; rfl
  rw [if_neg h8, first_match, if_neg h8]
  by_cases h9 : (current_meds_match cur (strLower med.name)) = true
  · rw [if_pos h9, first_match, if_pos h9]; rfl
  rw [if_neg h9, first_match, if_neg h9]
  rw [first_match]
  by_cases h10 : (warnings_after_pregnancy (strLower med.name) conds preg).isEmpty = true
  · rw [if_pos h10]; rfl
  · rw [if_neg h10]; rfl

/-- C1: for every medical profile with severity at least 7,
`recommend_medicines` returns an empty medicines list together with the
mandatory seek-care-now warning, for every symptom and every catalog; and the
whole result depends only on the primary symptom, so no per-candidate
filtering is performed at all. -/
theorem severity_gate_short_circuit (db : MedicineDB) (p : MedicalProfile)
    (h : p.severity ≥ 7) :
    (recommend_medicines db p).medicines = [] ∧
    (recommend_medicines db p).warning =
      some ("🚨 SEVERE SYMPTOMS - Seek medical attention TODAY") ∧
    (∀ q : MedicalProfile, q.severity ≥ 7 → q.primary_symptom = p.primary_symptom →
      recommend_medicines db q = recommend_medicines db p) := by
  have hb : ∀ r : MedicalProfile, r.severity ≥ 7 →
      recommend_medicines db r = severe_response db (strLower r.primary_symptom) := by
    intro r hr
    simp only [recommend_medicines, recommend_medicines_with, recommend_core]
    rw [if_pos hr]
  refine ⟨?_, ?_, ?_⟩
  · rw [hb p h]; rfl
  · rw [hb p h]; rfl
  · intro q hq hqs
    rw [hb p h, hb q hq, hqs]

/-- Witness for `severity_gate_short_circuit`: a severity-8 fever profile over
the empty catalog. -/
theorem severity_gate_short_circuit_witness :
    (recommend_medicines {} { primary_symptom := "fever", severity := 8 }).medicines = [] ∧
    (recommend_medicines {} { primary_symptom := "fever", severity := 8 }).warning =
      some ("🚨 SEVERE SYMPTOMS - Seek medical attention TODAY") := by
  have h := severity_gate_short_circuit {} { primary_symptom := "fever", severity := 8 } (by decide)
  exact ⟨h.1, h.2.1⟩

/-- A completed interview session used as a concrete test input. -/
def c2_session : SessionData :=
  { symptom := "fever"
    universal_answers :=
      [("age", "18-30"), ("severity", "3-6 (Moderate)"),
       ("current_medications", "None"), ("other_symptoms", "None")]
    symptom_specific_answers :=
      [("duration", "1-3 days"), ("pattern", "Constant"), ("triggers", "Stress")]
    current_question_index := 3
    phase := "symptom_specific"
    symptom_specific_questions := get_fallback_questions ("fever")
    started_at := "t0" }

/-- C2 counterexample: when the final narrative call fails, the caller does
NOT still receive the safety-filtered verified medicine data.  On unparseable
gateway output the result carries only the raw text (its analysis holds no
verified medicines), and on a raised gateway call the result is a bare error
with no analysis at all. -/
theorem narrative_failure_withholds_safety_data :
    (generate_final_analysis (NarrativeOutcome.unparsed ("Sorry, I cannot answer that")) {}
      c2_session).status = "complete" ∧
    (generate_final_analysis (NarrativeOutcome.unparsed ("Sorry, I cannot answer that")) {}
      c2_session).analysis = some { raw_response := some ("Sorry, I cannot answer that") } ∧
    ((generate_final_analysis (NarrativeOutcome.unparsed ("Sorry, I cannot answer that")) {}
      c2_session).analysis.map Analysis.verified_medicines) = some none ∧
    (generate_final_analysis (NarrativeOutcome.raised ("Request timed out")) {}
      c2_session).status = "error" ∧
    (generate_final_analysis (NarrativeOutcome.raised ("Request timed out")) {}
      c2_session).analysis = none :=
  ⟨rfl, rfl, rfl, rfl, rfl⟩

/-- C2 amended: a raised narrative call yields an error result with no
analysis and no medicine data; unparseable narrative output yields a complete
result whose analysis holds only the raw text (verified medicines are absent);
verified, safety-filtered medicine data is attached exactly when the narrative
JSON parses. -/
theorem narrative_degradation_contract (db : MedicineDB) (s : SessionData)
    (raw e : String) (a : Analysis) :
    (generate_final_analysis (NarrativeOutcome.raised e) db s).status = "error" ∧
    (generate_final_analysis (NarrativeOutcome.raised e) db s).analysis = none ∧
    (generate_final_analysis (NarrativeOutcome.raised e) db s).message =
      some ("Error generating analysis: " ++ e) ∧
    (generate_final_analysis (NarrativeOutcome.unparsed raw) db s).status = "complete" ∧
    (generate_final_analysis (NarrativeOutcome.unparsed raw) db s).analysis =
      some { raw_response := some raw } ∧
    (generate_final_analysis (NarrativeOutcome.parsed a) db s).status = "complete" ∧
    (generate_final_analysis (NarrativeOutcome.parsed a) db s).analysis =
      some (merge_verified a (recommend_medicines db
        (build_medical_profile_from_answers s.symptom s.universal_answers
          s.symptom_specific_answers))) :=
  ⟨rfl, rfl, rfl, rfl, rfl, rfl, rfl⟩

/-- C10: `recommend_medicines` is total at its interface — the typed body is
total and the interface returns it unchanged — and the `except` handler turns
any internal error into the fixed degraded response: empty medicines list,
consult-a-professional warning, `safety_verified = false`, the error message
attached. -/
theorem recommend_medicines_error_contract (db : MedicineDB) (p : MedicalProfile)
    (e : String) :
    recommend_medicines db p = recommend_medicines_with (Except.ok (recommend_core db p)) ∧
    recommend_medicines_with (Except.ok (recommend_core db p)) = recommend_core db p ∧
    (recommend_medicines_with (Except.error e)).medicines = [] ∧
    (recommend_medicines_with (Except.error e)).warning =
      some ("Unable to generate recommendations. Please consult a healthcare professional.") ∧
    (recommend_medicines_with (Except.error e)).safety_verified = false ∧
    (recommend_medicines_with (Except.error e)).error = some e ∧
    (recommend_medicines_with (Except.error e)).immediate_actions =
      ["Contact your healthcare provider for guidance"] :=
  ⟨rfl, rfl, rfl, rfl, rfl, rfl, rfl⟩

/-- C7: for every fresh session, regardless of the symptom text and of the
answers given, the first four questions returned are exactly the four
universal questions in their fixed order. -/
theorem universal_questions_first
    (qgen : Except String (Option (List RawQuestion))) (nar : NarrativeOutcome)
    (db : MedicineDB) (symptom now a1 a2 a3 : String) :
    questions_asked qgen nar db symptom now [a1, a2, a3] = universal_questions := rfl

/-- A fresh interview session for a fever assessment. -/
def c6_fresh_session : SessionData := { symptom := "fever", started_at := "t0" }

/-- A session whose question list is exhausted, as left behind by a completed
assessment (the phase stays `symptom_specific` with the cursor past the end). -/
def c6_done_session : SessionData :=
  { symptom := "cough"
    universal_answers :=
      [("age", "18-30"), ("severity", "0-2 (Minimal)"),
       ("current_medications", "None"), ("other_symptoms", "None")]
    symptom_specific_answers :=
      [("duration", "1-3 days"), ("pattern", "Constant"), ("triggers", "Stress")]
    current_question_index := 3
    phase := "symptom_specific"
    symptom_specific_questions := get_fallback_questions ("cough")
    started_at := "t0" }

/-- C6 counterexample: a malformed answer — one not among the current choice
question options — is NOT rejected: the engine stores it and continues,
mutating the session. -/
theorem malformed_answer_accepted :
    ("banana" ∉ (universal_questions.headD {}).options) ∧
    (process_answer (Except.ok none) (NarrativeOutcome.unparsed ("x")) {} ("banana")
      c6_fresh_session).status = "continue" ∧
    (process_answer (Except.ok none) (NarrativeOutcome.unparsed ("x")) {} ("banana")
      c6_fresh_session).session_data =
      some { c6_fresh_session with
        universal_answers := [("age", "banana")], current_question_index := 1 } :=
  ⟨by decide, rfl, rfl⟩

/-- C6 amended: empty symptom text and empty answers are rejected at the API
routes before the engine runs, with no session state touched; an answer to a
session whose question list is exhausted (as after completion) produces an
error result carrying no updated session (the index error precedes any
write); but an answer is never validated against the current question
options — in the universal phase any answer string is accepted and stored. -/
theorem input_error_handling
    (qgen : Except String (Option (List RawQuestion))) (nar : NarrativeOutcome)
    (db : MedicineDB) (ans now : String) (s : SessionData)
    (hph : s.phase = "symptom_specific")
    (hidx : s.symptom_specific_questions.length ≤ s.current_question_index) :
    start_dynamic_assessment_route ("") now = Sum.inl ("Symptom text required") ∧
    answer_dynamic_question_route qgen nar db ("") none = Sum.inl ("Answer required") ∧
    (process_answer qgen nar db ans s).status = "error" ∧
    (process_answer qgen nar db ans s).session_data = none ∧
    (process_answer qgen nar db ans s).message = some ("list index out of range") ∧
    (∀ s2 : SessionData, s2.phase = "universal" → s2.current_question_index = 0 →
      (process_answer qgen nar db ans s2).status = "continue" ∧
      (process_answer qgen nar db ans s2).session_data =
        some { s2 with universal_answers := update_assoc s2.universal_answers ("age") ans,
                       current_question_index := 1 }) := by
  have hnone : s.symptom_specific_questions[s.current_question_index]? = none :=
    List.getElem?_eq_none hidx
  refine ⟨rfl, rfl, ?_, ?_, ?_, ?_⟩
  · simp [process_answer, hph, hnone, mk_error]
  · simp [process_answer, hph, hnone, mk_error]
  · simp [process_answer, hph, hnone, mk_error]
  · intro s2 h1 h2
    obtain ⟨sym, ua, sa, qi, ph, qs, st⟩ := s2
    replace h1 : ph = "universal" := h1
    replace h2 : qi = 0 := h2
    subst h1
    subst h2
    exact ⟨rfl, rfl⟩

/-- Witness for `input_error_handling`: answering the exhausted session is an
error and returns no session. -/
theorem input_error_handling_witness :
    (process_answer (Except.ok none) (NarrativeOutcome.unparsed ("x")) {} ("Constant")
      c6_done_session).status = "error" ∧
    (process_answer (Except.ok none) (NarrativeOutcome.unparsed ("x")) {} ("Constant")
      c6_done_session).session_data = none := by
  have h := input_error_handling (Except.ok none) (NarrativeOutcome.unparsed ("x")) {}
    ("Constant") ("t0") c6_done_session rfl (by decide)
  exact ⟨h.2.2.1, h.2.2.2.1⟩

/-- No keyword rule of `_map_symptom_to_category` is triggered by `t`: none of
the trigger substrings of the ordered rule chain occurs. -/
def no_trigger_matches (t : String) : Bool :=
  !(containsSub t ("fever") || containsSub t ("temperature") || containsSub t ("pyrexia") ||
    (containsSub t ("head") && containsSub t ("ache")) || containsSub t ("migraine") ||
    containsSub t ("cough") || containsSub t ("throat") || containsSub t ("pharyngitis") ||
    containsSub t ("cold") || containsSub t ("runny nose") || containsSub t ("congestion") ||
    containsSub t ("diarrhea") || containsSub t ("loose motion") || containsSub t ("stomach upset") ||
    containsSub t ("acidity") || containsSub t ("heartburn") || containsSub t ("acid reflux") ||
    containsSub t ("allergy") || containsSub t ("allergic") || containsSub t ("rash") ||
    containsSub t ("itch") ||
    containsSub t ("pain") || containsSub t ("ache") || containsSub t ("sore"))

set_option maxHeartbeats 3200000 in
/-- C8: the classifier always returns a non-empty category (provided the
catalog has no empty-string key): exact match against the catalog category
keys first, then the keyword rules in their fixed priority order — any string
containing fever classifies as fever no matter what else it contains — and
the default fallback category is body_pain when no rule matches. -/
theorem classifier_contract (db : MedicineDB) (s : String)
    (h0 : alookup db.medicine_map ("") = none) :
    map_symptom_to_category db s ≠ "" ∧
    ((alookup db.medicine_map (strLower s)).isSome = true →
      map_symptom_to_category db s = strLower s) ∧
    ((alookup db.medicine_map (strLower s)).isSome = false →
      containsSub (strLower s) ("fever") = true →
      map_symptom_to_category db s = "fever") ∧
    ((alookup db.medicine_map (strLower s)).isSome = false →
      no_trigger_matches (strLower s) = true →
      map_symptom_to_category db s = "body_pain") := by
  refine ⟨?_, ?_, ?_, ?_⟩
  · by_cases hk : (alookup db.medicine_map (strLower s)).isSome = true
    · rw [map_symptom_to_category, if_pos hk]
      intro heq
      rw [heq, h0] at hk
      simp at hk
    · rw [map_symptom_to_category, if_neg hk]
      by_cases hg1 : (containsSub (strLower s) ("fever") || containsSub (strLower s) ("temperature") || containsSub (strLower s) ("pyrexia")) = true
      · rw [if_pos hg1]; decide
      rw [if_neg hg1]
      by_cases hg2 : (containsSub (strLower s) ("head") && containsSub (strLower s) ("ache")) = true
      · rw [if_pos hg2]; decide
      rw [if_neg hg2]
      by_cases hg3 : containsSub (strLower s) ("migraine") = true
      · rw [if_pos hg3]; decide
      rw [if_neg hg3]
      by_cases hg4 : containsSub (strLower s) ("cough") = true
      · rw [if_pos hg4]
        repeat' split
        all_goals decide
      rw [if_neg hg4]
      by_cases hg5 : (containsSub (strLower s) ("throat") || containsSub (strLower s) ("pharyngitis")) = true
      · rw [if_pos hg5]; decide
      rw [if_neg hg5]
      by_cases hg6 : (containsSub (strLower s) ("cold") || containsSub (strLower s) ("runny nose") || containsSub (strLower s) ("congestion")) = true
      · rw [if_pos hg6]
        repeat' split
        all_goals decide
      rw [if_neg hg6]
      by_cases hg7 : (containsSub (strLower s) ("diarrhea") || containsSub (strLower s) ("loose motion") || containsSub (strLower s) ("stomach upset")) = true
      · rw [if_pos hg7]
        repeat' split
        all_goals decide
      rw [if_neg hg7]
      by_cases hg8 : (containsSub (strLower s) ("acidity") || containsSub (strLower s) ("heartburn") || containsSub (strLower s) ("acid reflux")) = true
      · rw [if_pos hg8]
        repeat' split
        all_goals decide
      rw [if_neg hg8]
      by_cases hg9 : (containsSub (strLower s) ("allergy") || containsSub (strLower s) ("allergic") || containsSub (strLower s) ("rash") || containsSub (strLower s) ("itch")) = true
      · rw [if_pos hg9]
        repeat' split
        all_goals decide
      rw [if_neg hg9]
      by_cases hg10 : (containsSub (strLower s) ("pain") || containsSub (strLower s) ("ache") || containsSub (strLower s) ("sore")) = true
      · rw [if_pos hg10]; decide
      rw [if_neg hg10]
      decide
  · intro hk
    rw [map_symptom_to_category, if_pos hk]
  · intro hk hf
    rw [map_symptom_to_category, if_neg (by simp [hk]), if_pos (by simp [hf])]
  · intro hk hn
    have hxfever : containsSub (strLower s) ("fever") = false := by
      by_contra hc
      rw [Bool.not_eq_false] at hc
      simp [no_trigger_matches, hc] at hn
    have hxtemperature : containsSub (strLower s) ("temperature") = false := by
      by_contra hc
      rw [Bool.not_eq_false] at hc
      simp [no_trigger_matches, hc] at hn
    have hxpyrexia : containsSub (strLower s) ("pyrexia") = false := by
      by_contra hc
      rw [Bool.not_eq_false] at hc
      simp [no_trigger_matches, hc] at hn
    have hxache : containsSub (strLower s) ("ache") = false := by
      by_contra hc
      rw [Bool.not_eq_false] at hc
      simp [no_trigger_matches, hc] at hn
    have hxmigraine : containsSub (strLower s) ("migraine") = false := by
      by_contra hc
      rw [Bool.not_eq_false] at hc
      simp [no_trigger_matches, hc] at hn
    have hxcough : containsSub (strLower s) ("cough") = false := by
      by_contra hc
      rw [Bool.not_eq_false] at hc
      simp [no_trigger_matches, hc] at hn
    have hxthroat : containsSub (strLower s) ("throat") = false := by
      by_contra hc
      rw [Bool.not_eq_false] at hc
      simp [no_trigger_matches, hc] at hn
    have hxpharyngitis : containsSub (strLower s) ("pharyngitis") = false := by
      by_contra hc
      rw [Bool.not_eq_false] at hc
      simp [no_trigger_matches, hc] at hn
    have hxcold : containsSub (strLower s) ("cold") = false := by
      by_contra hc
      rw [Bool.not_eq_false] at hc
      simp [no_trigger_matches, hc] at hn
    have hxrunny : containsSub (strLower s) ("runny nose") = false := by
      by_contra hc
      rw [Bool.not_eq_false] at hc
      simp [no_trigger_matches, hc] at hn
    have hxcongestion : containsSub (strLower s) ("congestion") = false := by
      by_contra hc
      rw [Bool.not_eq_false] at hc
      simp [no_trigger_matches, hc] at hn
    have hxdiarrhea : containsSub (strLower s) ("diarrhea") = false := by
      by_contra hc
      rw [Bool.not_eq_false] at hc
      simp [no_trigger_matches, hc] at hn
    have hxloose : containsSub (strLower s) ("loose motion") = false := by
      by_contra hc
      rw [Bool.not_eq_false] at hc
      simp [no_trigger_matches, hc] at hn
    have hxstomachup : containsSub (strLower s) ("stomach upset") = false := by
      by_contra hc
      rw [Bool.not_eq_false] at hc
      simp [no_trigger_matches, hc] at hn
    have hxacidity : containsSub (strLower s) ("acidity") = false := by
      by_contra hc
      rw [Bool.not_eq_false] at hc
      simp [no_trigger_matches, hc] at hn
    have hxheartburn : containsSub (strLower s) ("heartburn") = false := by
      by_contra hc
      rw [Bool.not_eq_false] at hc
      simp [no_trigger_matches, hc] at hn
    have hxacidreflux : containsSub (strLower s) ("acid reflux") = false := by
      by_contra hc
      rw [Bool.not_eq_false] at hc
      simp [no_trigger_matches, hc] at hn
    have hxallergy : containsSub (strLower s) ("allergy") = false := by
      by_contra hc
      rw [Bool.not_eq_false] at hc
      simp [no_trigger_matches, hc] at hn
    have hxallergic : containsSub (strLower s) ("allergic") = false := by
      by_contra hc
      rw [Bool.not_eq_false] at hc
      simp [no_trigger_matches, hc] at hn
    have hxrash : containsSub (strLower s) ("rash") = false := by
      by_contra hc
      rw [Bool.not_eq_false] at hc
      simp [no_trigger_matches, hc] at hn
    have hxitch : containsSub (strLower s) ("itch") = false := by
      by_contra hc
      rw [Bool.not_eq_false] at hc
      simp [no_trigger_matches, hc] at hn
    have hxpain : containsSub (strLower s) ("pain") = false := by
      by_contra hc
      rw [Bool.not_eq_false] at hc
      simp [no_trigger_matches, hc] at hn
    have hxsore : containsSub (strLower s) ("sore") = false := by
      by_contra hc
      rw [Bool.not_eq_false] at hc
      simp [no_trigger_matches, hc] at hn
    rw [map_symptom_to_category, if_neg (by simp [hk])]
    rw [if_neg (by simp [hxfever, hxtemperature, hxpyrexia])]
    rw [if_neg (by simp [hxache])]
    rw [if_neg (by simp [hxmigraine])]
    rw [if_neg (by simp [hxcough])]
    rw [if_neg (by simp [hxthroat, hxpharyngitis])]
    rw [if_neg (by simp [hxcold, hxrunny, hxcongestion])]
    rw [if_neg (by simp [hxdiarrhea, hxloose, hxstomachup])]
    rw [if_neg (by simp [hxacidity, hxheartburn, hxacidreflux])]
    rw [if_neg (by simp [hxallergy, hxallergic, hxrash, hxitch])]
    rw [if_neg (by simp [hxpain, hxache, hxsore])]

/-- Witness for `classifier_contract`: over the empty catalog, the string
"fever and pain" has no exact match and classifies as fever — the fever rule
precedes the generic pain rule. -/
theorem classifier_contract_witness :
    map_symptom_to_category {} ("fever and pain") = "fever" :=
  (classifier_contract {} ("fever and pain") rfl).2.2.1 (by decide) (by decide)

/-- If the gateway outcome yields zero usable questions, the question
generator returns the fixed fallback catalog. -/
theorem generate_eq_fallback
    (qgen : Except String (Option (List RawQuestion)))
    (hq : usable_of qgen = []) (symptom : String) (ua : List (String × String)) :
    generate_symptom_specific_questions qgen symptom ua = get_fallback_questions symptom := by
  cases qgen with
  | error e => rfl
  | ok o =>
    cases o with
    | none => rfl
    | some qs =>
      have hv : qs.filterMap validate_raw_question = [] := hq
      simp [generate_symptom_specific_questions, hv]

/-- `process_answer` depends on the gateway outcome only through the
questions it generates. -/
theorem process_answer_congr
    (qgen qgen2 : Except String (Option (List RawQuestion))) (nar : NarrativeOutcome)
    (db : MedicineDB)
    (hgen : ∀ sym ua, generate_symptom_specific_questions qgen sym ua =
      generate_symptom_specific_questions qgen2 sym ua) :
    ∀ (a : String) (s : SessionData),
      process_answer qgen nar db a s = process_answer qgen2 nar db a s := by
  intro a s
  simp only [process_answer, hgen]

/-- `run_answers` depends on the gateway outcome only through the questions
it generates. -/
theorem run_answers_congr
    (qgen qgen2 : Except String (Option (List RawQuestion))) (nar : NarrativeOutcome)
    (db : MedicineDB)
    (hgen : ∀ sym ua, generate_symptom_specific_questions qgen sym ua =
      generate_symptom_specific_questions qgen2 sym ua) :
    ∀ (rest : List String) (a : String) (s : SessionData),
      run_answers qgen nar db a rest s = run_answers qgen2 nar db a rest s := by
  intro rest
  induction rest with
  | nil =>
    intro a s
    simp only [run_answers, process_answer_congr qgen qgen2 nar db hgen]
  | cons b more ih =>
    intro a s
    simp only [run_answers, process_answer_congr qgen qgen2 nar db hgen, ih]

/-- C9: whenever symptom-specific question generation yields zero usable
questions (failed call, unparseable output, an empty or fully malformed
list), the session receives the fixed catalog of generic fallback questions
(duration, pattern, triggers) and, provided the final narrative call itself
does not raise, a full run still reaches the complete analysis phase instead
of stalling or failing. -/
theorem fallback_reaches_complete
    (qgen : Except String (Option (List RawQuestion))) (nar : NarrativeOutcome)
    (db : MedicineDB) (symptom now a1 a2 a3 a4 a5 a6 a7 : String)
    (hq : usable_of qgen = [])
    (hn : ∀ e, nar ≠ NarrativeOutcome.raised e) :
    (∀ ua, generate_symptom_specific_questions qgen symptom ua =
      get_fallback_questions symptom) ∧
    (get_fallback_questions symptom).length = 3 ∧
    (run_session qgen nar db symptom now [a1, a2, a3, a4, a5, a6, a7]).status =
      "complete" := by
  have hgen : ∀ sym2 ua, generate_symptom_specific_questions qgen sym2 ua =
      generate_symptom_specific_questions (Except.ok none) sym2 ua := by
    intro sym2 ua
    rw [generate_eq_fallback qgen hq]
    rfl
  refine ⟨fun ua => generate_eq_fallback qgen hq symptom ua, rfl, ?_⟩
  have hrun : run_session qgen nar db symptom now [a1, a2, a3, a4, a5, a6, a7] =
      run_session (Except.ok none) nar db symptom now [a1, a2, a3, a4, a5, a6, a7] := by
    simp only [run_session, start_symptom_assessment, universal_questions]
    exact run_answers_congr qgen (Except.ok none) nar db hgen _ _ _
  rw [hrun]
  cases nar with
  | raised e => exact absurd rfl (hn e)
  | unparsed raw => rfl
  | parsed a => rfl

/-- Witness for `fallback_reaches_complete`: a gateway returning no
parseable question list, a concrete ear-pain session, seven answers. -/
theorem fallback_reaches_complete_witness :
    (run_session (Except.ok none) (NarrativeOutcome.unparsed ("no json")) {}
      ("ear pain") ("t0")
      ["18-30", "3-6 (Moderate)", "None", "None", "1-3 days", "Constant", "Stress"]).status =
      "complete" := by
  have h := fallback_reaches_complete (Except.ok none)
    (NarrativeOutcome.unparsed ("no json")) {} ("ear pain") ("t0")
    ("18-30") ("3-6 (Moderate)") ("None") ("None") ("1-3 days") ("Constant") ("Stress")
    rfl (by intro e he; cases he)
  exact h.2.2
